import Mathlib

/-!
Shallow embedding of `helpers.py`: a sine-wave generator (`sine_wave`), a
brute-force grid-search calibrator for gamma-distribution parameters
(`find_gamma_parameters`), and a nearest-greater-value finder
(`find_nearest_greater`).  Numeric scalars are modelled by `ℚ` (the grid
arithmetic of the code, idealized to exact arithmetic) or by `ℝ` for the
transcendental sine-wave formula.  The external statistical capability
(`scipy.stats.gamma.ppf` / `scipy.stats.gamma.pdf`) is modelled by explicit
function arguments `ppf` and `pdf` of the calibrator, so every theorem
about the calibrator holds for an arbitrary interpretation of the
distribution functions.
-/

/-- Model of `numpy.arange start stop step` in exact arithmetic: the list
`start, start + step, start + 2*step, …` with `⌈(stop - start) / step⌉`
elements (empty when that count is nonpositive), which is numpy's
documented length formula. -/
def arange (start stop step : ℚ) : List ℚ :=
  (List.range (⌈(stop - start) / step⌉).toNat).map fun i : ℕ => start + (i : ℚ) * step

/-- Embedding of `helpers.sine_wave`: `A * np.sin(2 * np.pi * f * x + phi) + C`. -/
noncomputable def sine_wave (x A f phi C : ℝ) : ℝ :=
  A * Real.sin (2 * Real.pi * f * x + phi) + C

/-- Embedding of `helpers.find_gamma_parameters`.  The outer loop runs over
`np.arange(alpha_range[0], alpha_range[1] + step_size, step_size)`, the inner
loop over `np.arange(tau_bar_range[0], tau_bar_range[1] + step_size, step_size)
* 365.25` (elementwise conversion from years to days); for each pair the
quantile `x_q = ppf q_target alpha (tau_bar / alpha)` and the density
`pdf x_q alpha (tau_bar / alpha)` are computed, and `(alpha, tau_bar)` is
appended to the result exactly when `|pdf_value - p_target| ≤ tolerance`.
The external `scipy.stats.gamma.ppf` / `scipy.stats.gamma.pdf` are the
arguments `ppf` (probability, shape, scale) and `pdf` (point, shape, scale). -/
def find_gamma_parameters (ppf pdf : ℚ → ℚ → ℚ → ℚ) (p_target q_target : ℚ)
    (alpha_range tau_bar_range : ℚ × ℚ) (tolerance step_size : ℚ) : List (ℚ × ℚ) :=
  (arange alpha_range.1 (alpha_range.2 + step_size) step_size).flatMap fun alpha =>
    ((arange tau_bar_range.1 (tau_bar_range.2 + step_size) step_size).map
        fun tau_bar => tau_bar * (365.25 : ℚ)).filterMap fun tau_bar =>
      let x_q := ppf q_target alpha (tau_bar / alpha)
      let pdf_value := pdf x_q alpha (tau_bar / alpha)
      if |pdf_value - p_target| ≤ tolerance then some (alpha, tau_bar) else none

/-- The full 2D grid of `(alpha, tau_bar)` pairs scanned by
`find_gamma_parameters`, in iteration order (`alpha` outer ascending,
`tau_bar` inner ascending, `tau_bar` already converted to days). -/
def gamma_grid (alpha_range tau_bar_range : ℚ × ℚ) (step_size : ℚ) : List (ℚ × ℚ) :=
  (arange alpha_range.1 (alpha_range.2 + step_size) step_size).flatMap fun alpha =>
    ((arange tau_bar_range.1 (tau_bar_range.2 + step_size) step_size).map
        fun tau_bar => tau_bar * (365.25 : ℚ)).map fun tau_bar => (alpha, tau_bar)

/-- The acceptance test applied by `find_gamma_parameters` to a single grid
pair: `|pdf (ppf q_target) - p_target| ≤ tolerance`, the gamma distribution
being parameterized by shape `alpha` and scale `tau_bar / alpha`. -/
def pdf_matches (ppf pdf : ℚ → ℚ → ℚ → ℚ) (p_target q_target tolerance alpha tau_bar : ℚ) :
    Bool :=
  decide (|pdf (ppf q_target alpha (tau_bar / alpha)) alpha (tau_bar / alpha) - p_target|
    ≤ tolerance)

/-- Embedding of `helpers.find_nearest_greater`; the `ValueError` raised on an
empty `greater_values` is modelled by `Except.error` carrying the message. -/
def find_nearest_greater (array : List ℚ) (value : ℚ) : Except String Nat :=
  match array.filter fun x => decide (value < x) with
  | [] => Except.error "No element in the array is greater than the provided value."
  | g :: gs =>
      let nearest_value := gs.foldl min g
      Except.ok (array.findIdx fun x => decide (x = nearest_value))

/-!  General-purpose helper lemmas. -/

theorem filterMap_ite_eq_filter {β γ : Type} (g : β → γ) (p : γ → Prop) [DecidablePred p]
    (l : List β) :
    (l.filterMap fun x => if p (g x) then some (g x) else none) =
      (l.map g).filter fun y => decide (p y) := by
  induction l with
  | nil => simp
  | cons x xs ih =>
    simp only [List.filterMap_cons, List.map_cons, List.filter_cons]
    by_cases h : p (g x) <;> simp [h, ih]

theorem find_gamma_parameters_eq_filter (ppf pdf : ℚ → ℚ → ℚ → ℚ) (p_target q_target : ℚ)
    (alpha_range tau_bar_range : ℚ × ℚ) (tolerance step_size : ℚ) :
    find_gamma_parameters ppf pdf p_target q_target alpha_range tau_bar_range
        tolerance step_size =
      (gamma_grid alpha_range tau_bar_range step_size).filter fun pr =>
        pdf_matches ppf pdf p_target q_target tolerance pr.1 pr.2 := by
  unfold find_gamma_parameters gamma_grid
  rw [List.filter_flatMap]
  congr 1
  funext alpha
  exact filterMap_ite_eq_filter (fun tau_bar => (alpha, tau_bar))
    (fun pr => |pdf (ppf q_target pr.1 (pr.2 / pr.1)) pr.1 (pr.2 / pr.1) - p_target|
      ≤ tolerance) _

theorem mem_arange {start stop step x : ℚ} (hx : x ∈ arange start stop step) :
    ∃ i : ℕ, x = start + i * step := by
  simp only [arange, List.mem_map, List.mem_range] at hx
  obtain ⟨i, -, hix⟩ := hx
  exact ⟨i, hix.symm⟩

theorem arange_pos {start stop step x : ℚ} (ha : 0 < start) (hst : 0 ≤ step)
    (hx : x ∈ arange start stop step) : 0 < x := by
  obtain ⟨i, rfl⟩ := mem_arange hx
  have : (0 : ℚ) ≤ i * step := mul_nonneg (by positivity) hst
  linarith

theorem arange_eq_nil {start stop step : ℚ} (hst : 0 < step) (h : stop ≤ start) :
    arange start stop step = [] := by
  have h1 : (stop - start) / step ≤ 0 :=
    div_nonpos_of_nonpos_of_nonneg (by linarith) hst.le
  have h2 : (⌈(stop - start) / step⌉ : ℤ) ≤ 0 := by
    rw [show (0 : ℤ) = ((0 : ℤ) : ℤ) from rfl]
    exact Int.ceil_le.2 (by exact_mod_cast h1)
  unfold arange
  rw [Int.toNat_of_nonpos h2]
  rfl

theorem foldl_min_mem (g : ℚ) (gs : List ℚ) : gs.foldl min g ∈ g :: gs := by
  induction gs generalizing g with
  | nil => simp
  | cons x xs ih =>
    simp only [List.foldl_cons]
    have h := ih (min g x)
    rcases List.mem_cons.1 h with h1 | h1
    · rw [h1]
      rcases min_choice g x with h2 | h2 <;> rw [h2] <;> simp
    · exact List.mem_cons_of_mem _ (List.mem_cons_of_mem _ h1)

theorem foldl_min_le (g : ℚ) (gs : List ℚ) : ∀ y ∈ g :: gs, gs.foldl min g ≤ y := by
  induction gs generalizing g with
  | nil =>
    intro y hy
    simp only [List.mem_singleton] at hy
    simp [hy]
  | cons x xs ih =>
    intro y hy
    simp only [List.foldl_cons]
    have hle : xs.foldl min (min g x) ≤ min g x := ih (min g x) (min g x) (by simp)
    rcases List.mem_cons.1 hy with rfl | hy'
    · exact le_trans hle (min_le_left _ _)
    · rcases List.mem_cons.1 hy' with rfl | hy''
      · exact le_trans hle (min_le_right _ _)
      · exact ih (min g x) y (List.mem_cons_of_mem _ hy'')

theorem find_nearest_greater_cons_aux (array : List ℚ) (value g : ℚ) (gs : List ℚ)
    (hgl : array.filter (fun x => decide (value < x)) = g :: gs) :
    ∃ idx : ℕ, find_nearest_greater array value = Except.ok idx ∧
      ∃ hlt : idx < array.length,
        value < array.get ⟨idx, hlt⟩ ∧
        (∀ y ∈ array, value < y → array.get ⟨idx, hlt⟩ ≤ y) ∧
        ∀ j : ℕ, ∀ hj : j < array.length, j < idx →
          array.get ⟨j, hj⟩ ≠ array.get ⟨idx, hlt⟩ := by
  have hfng : find_nearest_greater array value =
      Except.ok (array.findIdx fun x => decide (x = gs.foldl min g)) := by
    unfold find_nearest_greater
    rw [hgl]
  set nearest := gs.foldl min g with hnearest
  have hmem_filter : nearest ∈ array.filter fun x => decide (value < x) := by
    rw [hgl]; exact foldl_min_mem g gs
  have hmem : nearest ∈ array := List.mem_of_mem_filter hmem_filter
  have hgt : value < nearest := by
    have := List.of_mem_filter hmem_filter
    simpa using this
  have hexists : ∃ x ∈ array, (fun x => decide (x = nearest)) x = true := ⟨nearest, hmem, by simp⟩
  have hlt : (array.findIdx fun x => decide (x = nearest)) < array.length :=
    List.findIdx_lt_length_of_exists hexists
  refine ⟨array.findIdx fun x => decide (x = nearest), hfng, hlt, ?_, ?_, ?_⟩
  · have := @List.findIdx_getElem _ (fun x => decide (x = nearest)) array hlt
    simp only [decide_eq_true_eq] at this
    rw [List.get_eq_getElem, this]
    exact hgt
  · intro y hy hvy
    have hyf : y ∈ array.filter fun x => decide (value < x) :=
      List.mem_filter.2 ⟨hy, by simpa using hvy⟩
    rw [hgl] at hyf
    have := @List.findIdx_getElem _ (fun x => decide (x = nearest)) array hlt
    simp only [decide_eq_true_eq] at this
    rw [List.get_eq_getElem, this]
    exact foldl_min_le g gs y hyf
  · intro j hj hjlt hcontra
    have hne := List.not_of_lt_findIdx hjlt
    have := @List.findIdx_getElem _ (fun x => decide (x = nearest)) array hlt
    simp only [decide_eq_true_eq] at this
    rw [List.get_eq_getElem, List.get_eq_getElem, this] at hcontra
    simp [hcontra] at hne

/-!  Claims. -/

/-- Claim C9: for every input `x` and parameters `A`, `f`, `phi`, `C`,
`sine_wave x A f phi C` equals `A * sin(2 * π * f * x + phi) + C`. -/
theorem sine_wave_formula (x A f phi C : ℝ) :
    sine_wave x A f phi C = A * Real.sin (2 * Real.pi * f * x + phi) + C := rfl

/-- Claim C6: whenever no element of the input sequence is strictly greater
than `value` (including the empty-input case), `find_nearest_greater` fails
with the documented empty-result `ValueError` (modelled as `Except.error`
with the source's message), and no other outcome is possible there. -/
theorem find_nearest_greater_error_when_none_greater (array : List ℚ) (value : ℚ)
    (h : ∀ x ∈ array, x ≤ value) :
    find_nearest_greater array value =
      Except.error "No element in the array is greater than the provided value." := by
  have hnil : array.filter (fun x => decide (value < x)) = [] := by
    rw [List.filter_eq_nil_iff]
    intro x hx
    simpa using not_lt.2 (h x hx)
  unfold find_nearest_greater
  rw [hnil]

/-- Witness for C6 at the concrete input `[1, 2]`, `value = 3`. -/
theorem find_nearest_greater_error_when_none_greater_witness :
    (∀ x ∈ ([1, 2] : List ℚ), x ≤ 3) ∧
      find_nearest_greater [1, 2] 3 =
        Except.error "No element in the array is greater than the provided value." :=
  ⟨by norm_num, find_nearest_greater_error_when_none_greater [1, 2] 3 (by norm_num)⟩

/-- Claim C3: for every non-empty input sequence containing at least one
element strictly greater than `value`, `find_nearest_greater` returns the
index of the smallest such element (its entry exceeds `value` and is a lower
bound of all entries exceeding `value`), and no earlier index holds that
minimal entry (first match in original order); in particular on `[1, 4, 7, 4]`
with `value = 3` it returns index 1. -/
theorem find_nearest_greater_min_first :
    (∀ (array : List ℚ) (value : ℚ), (∃ x ∈ array, value < x) →
      ∃ idx : ℕ, find_nearest_greater array value = Except.ok idx ∧
        ∃ hlt : idx < array.length,
          value < array.get ⟨idx, hlt⟩ ∧
          (∀ y ∈ array, value < y → array.get ⟨idx, hlt⟩ ≤ y) ∧
          ∀ j : ℕ, ∀ hj : j < array.length, j < idx →
            array.get ⟨j, hj⟩ ≠ array.get ⟨idx, hlt⟩) ∧
    find_nearest_greater [1, 4, 7, 4] 3 = Except.ok 1 := by
  constructor
  · intro array value h
    obtain ⟨x, hx, hvx⟩ := h
    have hne : array.filter (fun x => decide (value < x)) ≠ [] := by
      intro hnil
      have : x ∈ array.filter fun x => decide (value < x) :=
        List.mem_filter.2 ⟨hx, by simpa using hvx⟩
      rw [hnil] at this
      exact List.not_mem_nil x this
    obtain ⟨g, gs, hgl⟩ := List.exists_cons_of_ne_nil hne
    exact find_nearest_greater_cons_aux array value g gs hgl
  · have hfil : ([1, 4, 7, 4] : List ℚ).filter (fun x => decide ((3 : ℚ) < x)) = [4, 7, 4] := by
      norm_num
    have hmin : ([7, 4] : List ℚ).foldl min 4 = 4 := by
      simp only [List.foldl_cons, List.foldl_nil]
      norm_num
    unfold find_nearest_greater
    rw [hfil]
    simp only [hmin]
    have hidx : (([1, 4, 7, 4] : List ℚ).findIdx fun x => decide (x = 4)) = 1 := by
      norm_num [List.findIdx_cons]
    rw [hidx]

/-- Witness for C3: the general statement applied at `[1, 4, 7, 4]`,
`value = 3`, where element 4 (index 1) is the least element above 3. -/
theorem find_nearest_greater_min_first_witness :
    (∃ x ∈ ([1, 4, 7, 4] : List ℚ), (3 : ℚ) < x) ∧
      (∃ idx : ℕ, find_nearest_greater [1, 4, 7, 4] 3 = Except.ok idx ∧
        ∃ hlt : idx < ([1, 4, 7, 4] : List ℚ).length,
          (3 : ℚ) < ([1, 4, 7, 4] : List ℚ).get ⟨idx, hlt⟩ ∧
          (∀ y ∈ ([1, 4, 7, 4] : List ℚ), (3 : ℚ) < y →
            ([1, 4, 7, 4] : List ℚ).get ⟨idx, hlt⟩ ≤ y) ∧
          ∀ j : ℕ, ∀ hj : j < ([1, 4, 7, 4] : List ℚ).length, j < idx →
            ([1, 4, 7, 4] : List ℚ).get ⟨j, hj⟩ ≠ ([1, 4, 7, 4] : List ℚ).get ⟨idx, hlt⟩) :=
  ⟨⟨4, by norm_num⟩,
    find_nearest_greater_min_first.1 [1, 4, 7, 4] 3 ⟨4, by norm_num⟩⟩

/-- Claim C10: on the empty input sequence `find_nearest_greater` raises the
same documented `ValueError` as the general no-greater-element case, and
whenever it returns without error the returned index is a valid position into
the input whose element is strictly greater than `value`. -/
theorem find_nearest_greater_empty_and_ok_sound :
    (∀ value : ℚ, find_nearest_greater [] value =
      Except.error "No element in the array is greater than the provided value.") ∧
    ∀ (array : List ℚ) (value : ℚ) (idx : ℕ),
      find_nearest_greater array value = Except.ok idx →
        ∃ hlt : idx < array.length, value < array.get ⟨idx, hlt⟩ := by
  constructor
  · intro value
    rfl
  · intro array value idx hok
    cases hgl : array.filter fun x => decide (value < x) with
    | nil =>
      unfold find_nearest_greater at hok
      rw [hgl] at hok
      cases hok
    | cons g gs =>
      obtain ⟨idx', hok', hlt', hval', -, -⟩ := find_nearest_greater_cons_aux array value g gs hgl
      rw [hok'] at hok
      cases hok
      exact ⟨hlt', hval'⟩

/-- Witness for C10's conditional part at the concrete input `[1, 4, 7, 4]`,
`value = 3`, `idx = 1`. -/
theorem find_nearest_greater_empty_and_ok_sound_witness :
    find_nearest_greater [1, 4, 7, 4] 3 = Except.ok 1 ∧
      ∃ hlt : (1 : ℕ) < ([1, 4, 7, 4] : List ℚ).length,
        (3 : ℚ) < ([1, 4, 7, 4] : List ℚ).get ⟨1, hlt⟩ := by
  have hok : find_nearest_greater [1, 4, 7, 4] 3 = Except.ok 1 := by
    have hfil : ([1, 4, 7, 4] : List ℚ).filter (fun x => decide ((3 : ℚ) < x)) = [4, 7, 4] := by
      norm_num
    have hmin : ([7, 4] : List ℚ).foldl min 4 = 4 := by
      simp only [List.foldl_cons, List.foldl_nil]
      norm_num
    unfold find_nearest_greater
    rw [hfil]
    simp only [hmin]
    have hidx : (([1, 4, 7, 4] : List ℚ).findIdx fun x => decide (x = 4)) = 1 := by
      norm_num [List.findIdx_cons]
    rw [hidx]
  exact ⟨hok, find_nearest_greater_empty_and_ok_sound.2 [1, 4, 7, 4] 3 1 hok⟩

/-- Claim C1: for every well-formed input, the length of the returned sequence
equals the number of grid pairs passing the density test, and every returned
pair `(alpha, tau_bar_days)` satisfies
`|pdf (ppf q_target) - p_target| ≤ tolerance` for the distribution with shape
`alpha` and scale `tau_bar_days / alpha`. -/
theorem find_gamma_parameters_length_and_members (ppf pdf : ℚ → ℚ → ℚ → ℚ)
    (p_target q_target : ℚ) (alpha_range tau_bar_range : ℚ × ℚ)
    (tolerance step_size : ℚ)
    (hp : 0 ≤ p_target) (hq0 : 0 < q_target) (hq1 : q_target < 1)
    (ha : 0 < alpha_range.1) (ht : 0 < tau_bar_range.1)
    (hst : 0 < step_size) (htol : 0 ≤ tolerance) :
    (find_gamma_parameters ppf pdf p_target q_target alpha_range tau_bar_range
        tolerance step_size).length =
      ((gamma_grid alpha_range tau_bar_range step_size).filter fun pr =>
        pdf_matches ppf pdf p_target q_target tolerance pr.1 pr.2).length ∧
    ∀ pr ∈ find_gamma_parameters ppf pdf p_target q_target alpha_range tau_bar_range
        tolerance step_size,
      |pdf (ppf q_target pr.1 (pr.2 / pr.1)) pr.1 (pr.2 / pr.1) - p_target| ≤ tolerance := by
  constructor
  · rw [find_gamma_parameters_eq_filter]
  · intro pr hpr
    rw [find_gamma_parameters_eq_filter] at hpr
    have hmatch := List.of_mem_filter hpr
    simpa [pdf_matches] using hmatch

/-- Witness for C1 at a concrete well-formed input (constant zero oracles,
`p_target = 0`, `q_target = 1/2`, unit ranges, zero tolerance, unit step). -/
theorem find_gamma_parameters_length_and_members_witness :
    ((0 : ℚ) ≤ 0 ∧ (0 : ℚ) < 1/2 ∧ (1/2 : ℚ) < 1 ∧ (0 : ℚ) < 1 ∧ (0 : ℚ) < 1) ∧
    ((find_gamma_parameters (fun _ _ _ => 0) (fun _ _ _ => 0) 0 (1/2) (1, 1) (1, 1)
        0 1).length =
      ((gamma_grid (1, 1) (1, 1) 1).filter fun pr =>
        pdf_matches (fun _ _ _ => 0) (fun _ _ _ => 0) 0 (1/2) 0 pr.1 pr.2).length ∧
    ∀ pr ∈ find_gamma_parameters (fun _ _ _ => 0) (fun _ _ _ => 0) 0 (1/2) (1, 1) (1, 1)
        0 1,
      |(fun _ _ _ => (0:ℚ)) ((fun _ _ _ => (0:ℚ)) (1/2) pr.1 (pr.2 / pr.1)) pr.1 (pr.2 / pr.1)
        - 0| ≤ 0) :=
  ⟨⟨le_refl 0, by norm_num, by norm_num, by norm_num, by norm_num⟩,
    find_gamma_parameters_length_and_members (fun _ _ _ => 0) (fun _ _ _ => 0) 0 (1/2)
      (1, 1) (1, 1) 0 1 (le_refl 0) (by norm_num) (by norm_num) (by norm_num)
      (by norm_num) (by norm_num) (le_refl 0)⟩

/-- Counterexample to claim C2 as stated: with `alpha_range = (1, 19/20)`
(so `alpha_range[1] < alpha_range[0]`), `tau_bar_range = (1, 1)`,
`step_size = 1/10`, and oracles/targets making the density test pass,
`np.arange(1, 19/20 + 1/10, 1/10) = [1]` is nonempty, one iteration occurs,
and the returned sequence is nonempty. -/
theorem find_gamma_parameters_inverted_counterexample :
    (19/20 : ℚ) < 1 ∧
    find_gamma_parameters (fun _ _ _ => 0) (fun _ _ _ => 0) 0 (1/2) (1, 19/20) (1, 1)
      0 (1/10) ≠ [] := by
  have hceil1 : (⌈((19/20 + 1/10 : ℚ) - 1) / (1/10)⌉ : ℤ) = 1 := by
    norm_num [Int.ceil_eq_iff]
  have h1 : arange 1 (19/20 + 1/10) (1/10) = [1] := by
    unfold arange
    rw [hceil1]
    norm_num [List.range_succ]
  have hceil2 : (⌈((1 + 1/10 : ℚ) - 1) / (1/10)⌉ : ℤ) = 1 := by
    norm_num [Int.ceil_eq_iff]
  have h2 : arange 1 (1 + 1/10) (1/10) = [1] := by
    unfold arange
    rw [hceil2]
    norm_num [List.range_succ]
  refine ⟨by norm_num, ?_⟩
  intro hcontra
  rw [find_gamma_parameters] at hcontra
  simp only [h1, h2] at hcontra
  norm_num [List.flatMap_cons, List.filterMap_cons] at hcontra

/-- Claim C2 amended: if the upper bound falls short of the lower bound by at
least one step (`alpha_range[1] + step_size ≤ alpha_range[0]` or
`tau_bar_range[1] + step_size ≤ tau_bar_range[0]`), no iterations occur and
the result is the empty sequence.  (As stated, with merely
`alpha_range[1] < alpha_range[0]`, the claim is refuted by
`find_gamma_parameters_inverted_counterexample`: the loop bound is
`alpha_range[1] + step_size`, so a range inverted by less than one step still
yields one iteration.) -/
theorem find_gamma_parameters_inverted_by_step_empty (ppf pdf : ℚ → ℚ → ℚ → ℚ)
    (p_target q_target : ℚ) (alpha_range tau_bar_range : ℚ × ℚ)
    (tolerance step_size : ℚ) (hst : 0 < step_size)
    (h : alpha_range.2 + step_size ≤ alpha_range.1 ∨
      tau_bar_range.2 + step_size ≤ tau_bar_range.1) :
    find_gamma_parameters ppf pdf p_target q_target alpha_range tau_bar_range
      tolerance step_size = [] := by
  rcases h with h | h
  · unfold find_gamma_parameters
    rw [arange_eq_nil hst h]
    rfl
  · unfold find_gamma_parameters
    rw [arange_eq_nil hst h]
    simp [List.flatMap_eq_nil_iff]

/-- Witness for the amended C2 at `alpha_range = (1, 0)`, `step_size = 1`. -/
theorem find_gamma_parameters_inverted_by_step_empty_witness :
    ((0 : ℚ) < 1 ∧ ((0 : ℚ) + 1 ≤ 1 ∨ (1 : ℚ) + 1 ≤ 1)) ∧
    find_gamma_parameters (fun _ _ _ => 0) (fun _ _ _ => 0) 0 (1/2) (1, 0) (1, 1)
      0 1 = [] :=
  ⟨⟨by norm_num, Or.inl (by norm_num)⟩,
    find_gamma_parameters_inverted_by_step_empty (fun _ _ _ => 0) (fun _ _ _ => 0)
      0 (1/2) (1, 0) (1, 1) 0 1 (by norm_num) (Or.inl (by norm_num))⟩

/-- Claim C4: for fixed other arguments, a smaller tolerance yields a sublist
(hence a subset, of length at most that) of the result for a larger
tolerance. -/
theorem find_gamma_parameters_tolerance_mono (ppf pdf : ℚ → ℚ → ℚ → ℚ)
    (p_target q_target : ℚ) (alpha_range tau_bar_range : ℚ × ℚ)
    (tolerance1 tolerance2 step_size : ℚ) (h : tolerance1 ≤ tolerance2) :
    List.Sublist
      (find_gamma_parameters ppf pdf p_target q_target alpha_range tau_bar_range
        tolerance1 step_size)
      (find_gamma_parameters ppf pdf p_target q_target alpha_range tau_bar_range
        tolerance2 step_size) ∧
    (∀ pr ∈ find_gamma_parameters ppf pdf p_target q_target alpha_range tau_bar_range
        tolerance1 step_size,
      pr ∈ find_gamma_parameters ppf pdf p_target q_target alpha_range tau_bar_range
        tolerance2 step_size) ∧
    (find_gamma_parameters ppf pdf p_target q_target alpha_range tau_bar_range
        tolerance1 step_size).length ≤
      (find_gamma_parameters ppf pdf p_target q_target alpha_range tau_bar_range
        tolerance2 step_size).length := by
  have hs : List.Sublist
      (find_gamma_parameters ppf pdf p_target q_target alpha_range tau_bar_range
        tolerance1 step_size)
      (find_gamma_parameters ppf pdf p_target q_target alpha_range tau_bar_range
        tolerance2 step_size) := by
    rw [find_gamma_parameters_eq_filter, find_gamma_parameters_eq_filter]
    apply List.monotone_filter_right
    intro pr hpr
    simp only [pdf_matches, decide_eq_true_eq] at hpr ⊢
    exact le_trans hpr h
  exact ⟨hs, fun pr hpr => hs.subset hpr, hs.length_le⟩

/-- Witness for C4 at tolerances `0 ≤ 1` and concrete remaining arguments. -/
theorem find_gamma_parameters_tolerance_mono_witness :
    (0 : ℚ) ≤ 1 ∧
    (List.Sublist
      (find_gamma_parameters (fun _ _ _ => 0) (fun _ _ _ => 0) 0 (1/2) (1, 1) (1, 1) 0 1)
      (find_gamma_parameters (fun _ _ _ => 0) (fun _ _ _ => 0) 0 (1/2) (1, 1) (1, 1) 1 1) ∧
    (∀ pr ∈ find_gamma_parameters (fun _ _ _ => 0) (fun _ _ _ => 0) 0 (1/2) (1, 1) (1, 1) 0 1,
      pr ∈ find_gamma_parameters (fun _ _ _ => 0) (fun _ _ _ => 0) 0 (1/2) (1, 1) (1, 1) 1 1) ∧
    (find_gamma_parameters (fun _ _ _ => 0) (fun _ _ _ => 0) 0 (1/2) (1, 1) (1, 1) 0 1).length ≤
      (find_gamma_parameters (fun _ _ _ => 0) (fun _ _ _ => 0) 0 (1/2) (1, 1) (1, 1) 1 1).length) :=
  ⟨by norm_num,
    find_gamma_parameters_tolerance_mono (fun _ _ _ => 0) (fun _ _ _ => 0) 0 (1/2)
      (1, 1) (1, 1) 0 1 1 (by norm_num)⟩

theorem length_flatMap_const {A B : Type} (l : List A) (f : A → List B) (n : ℕ)
    (h : ∀ x ∈ l, (f x).length = n) : (l.flatMap f).length = l.length * n := by
  induction l with
  | nil => simp
  | cons x xs ih =>
    simp only [List.flatMap_cons, List.length_append, List.length_cons]
    rw [h x (List.mem_cons_self x xs), ih fun y hy => h y (List.mem_cons_of_mem x hy)]
    ring

/-- Claim C8: the double loop is finite and deterministic: the scanned grid
has exactly `⌈range_alpha/step⌉ * ⌈range_tau/step⌉` entries (with
`range_alpha = alpha_range[1] + step_size - alpha_range[0]` and similarly for
tau, numpy's inclusive-endpoint extension), and the returned sequence is never
longer than that.  Determinism and statelessness hold definitionally:
`find_gamma_parameters` is a pure function of its arguments. -/
theorem find_gamma_parameters_finite (ppf pdf : ℚ → ℚ → ℚ → ℚ)
    (p_target q_target : ℚ) (alpha_range tau_bar_range : ℚ × ℚ)
    (tolerance step_size : ℚ) (hst : 0 < step_size) :
    (gamma_grid alpha_range tau_bar_range step_size).length =
      (⌈(alpha_range.2 + step_size - alpha_range.1) / step_size⌉).toNat *
        (⌈(tau_bar_range.2 + step_size - tau_bar_range.1) / step_size⌉).toNat ∧
    (find_gamma_parameters ppf pdf p_target q_target alpha_range tau_bar_range
        tolerance step_size).length ≤
      (⌈(alpha_range.2 + step_size - alpha_range.1) / step_size⌉).toNat *
        (⌈(tau_bar_range.2 + step_size - tau_bar_range.1) / step_size⌉).toNat := by
  have hgrid : (gamma_grid alpha_range tau_bar_range step_size).length =
      (⌈(alpha_range.2 + step_size - alpha_range.1) / step_size⌉).toNat *
        (⌈(tau_bar_range.2 + step_size - tau_bar_range.1) / step_size⌉).toNat := by
    unfold gamma_grid
    rw [length_flatMap_const _ _
      ((⌈(tau_bar_range.2 + step_size - tau_bar_range.1) / step_size⌉).toNat)
      (fun alpha _ => by simp [arange, List.length_map, List.length_range])]
    simp [arange, List.length_map, List.length_range]
  refine ⟨hgrid, ?_⟩
  rw [find_gamma_parameters_eq_filter, ← hgrid]
  exact List.length_filter_le _ _

/-- Witness for C8 at a concrete input with unit step. -/
theorem find_gamma_parameters_finite_witness :
    (0 : ℚ) < 1 ∧
    ((gamma_grid (1, 1) (1, 1) 1).length =
      (⌈((1 : ℚ) + 1 - 1) / 1⌉).toNat * (⌈((1 : ℚ) + 1 - 1) / 1⌉).toNat ∧
    (find_gamma_parameters (fun _ _ _ => 0) (fun _ _ _ => 0) 0 (1/2) (1, 1) (1, 1)
        0 1).length ≤
      (⌈((1 : ℚ) + 1 - 1) / 1⌉).toNat * (⌈((1 : ℚ) + 1 - 1) / 1⌉).toNat) :=
  ⟨by norm_num,
    find_gamma_parameters_finite (fun _ _ _ => 0) (fun _ _ _ => 0) 0 (1/2) (1, 1) (1, 1)
      0 1 (by norm_num)⟩

/-- Claim C5: the returned sequence consists of the recorded pairs in iteration
order: the outer index ranges over shapes `alpha_range.1 + i * step_size`
(ascending in `i`), the inner index over means `tau_bar_range.1 + j * step_size`
(ascending in `j`) converted from years to days by multiplying by 365.25, the
scale parameter being `tau_bar / alpha`; both enumerations are strictly
ascending since `step_size > 0`. -/
theorem find_gamma_parameters_iteration_order (ppf pdf : ℚ → ℚ → ℚ → ℚ)
    (p_target q_target : ℚ) (alpha_range tau_bar_range : ℚ × ℚ)
    (tolerance step_size : ℚ) (hst : 0 < step_size) :
    (find_gamma_parameters ppf pdf p_target q_target alpha_range tau_bar_range
        tolerance step_size =
      (List.range (⌈(alpha_range.2 + step_size - alpha_range.1) / step_size⌉).toNat).flatMap
        fun i : ℕ =>
          (List.range
              (⌈(tau_bar_range.2 + step_size - tau_bar_range.1) / step_size⌉).toNat).filterMap
            fun j : ℕ =>
              if |pdf (ppf q_target (alpha_range.1 + (i : ℚ) * step_size)
                      (((tau_bar_range.1 + (j : ℚ) * step_size) * (365.25 : ℚ)) /
                        (alpha_range.1 + (i : ℚ) * step_size)))
                    (alpha_range.1 + (i : ℚ) * step_size)
                    (((tau_bar_range.1 + (j : ℚ) * step_size) * (365.25 : ℚ)) /
                      (alpha_range.1 + (i : ℚ) * step_size)) - p_target| ≤ tolerance then
                some (alpha_range.1 + (i : ℚ) * step_size,
                  (tau_bar_range.1 + (j : ℚ) * step_size) * (365.25 : ℚ))
              else none) ∧
    (∀ i j : ℕ, i < j →
      alpha_range.1 + (i : ℚ) * step_size < alpha_range.1 + (j : ℚ) * step_size) ∧
    (∀ i j : ℕ, i < j →
      (tau_bar_range.1 + (i : ℚ) * step_size) * (365.25 : ℚ) <
        (tau_bar_range.1 + (j : ℚ) * step_size) * (365.25 : ℚ)) := by
  refine ⟨?_, ?_, ?_⟩
  · unfold find_gamma_parameters arange
    rw [List.flatMap_map]
    congr 1
    funext i
    rw [List.map_map, List.filterMap_map]
    rfl
  · intro i j hij
    have h1 : (i : ℚ) < j := by exact_mod_cast hij
    have h2 : (i : ℚ) * step_size < (j : ℚ) * step_size := mul_lt_mul_of_pos_right h1 hst
    linarith
  · intro i j hij
    have h1 : (i : ℚ) < j := by exact_mod_cast hij
    have h2 : (i : ℚ) * step_size < (j : ℚ) * step_size := mul_lt_mul_of_pos_right h1 hst
    have h3 : (0 : ℚ) < (365.25 : ℚ) := by norm_num
    have h4 : tau_bar_range.1 + (i : ℚ) * step_size < tau_bar_range.1 + (j : ℚ) * step_size := by
      linarith
    exact mul_lt_mul_of_pos_right h4 h3

/-- Witness for C5 at a concrete input with unit ranges and unit step. -/
theorem find_gamma_parameters_iteration_order_witness :
    (0 : ℚ) < 1 ∧
    ((find_gamma_parameters (fun _ _ _ => 0) (fun _ _ _ => 0) 0 (1/2) (1, 1) (1, 1) 0 1 =
      (List.range (⌈((1 : ℚ) + 1 - 1) / 1⌉).toNat).flatMap fun i : ℕ =>
        (List.range (⌈((1 : ℚ) + 1 - 1) / 1⌉).toNat).filterMap fun j : ℕ =>
          if |(0 : ℚ) - 0| ≤ 0 then
            some ((1 : ℚ) + (i : ℚ) * 1, ((1 : ℚ) + (j : ℚ) * 1) * (365.25 : ℚ))
          else none) ∧
    (∀ i j : ℕ, i < j → (1 : ℚ) + (i : ℚ) * 1 < 1 + (j : ℚ) * 1) ∧
    (∀ i j : ℕ, i < j →
      ((1 : ℚ) + (i : ℚ) * 1) * (365.25 : ℚ) < ((1 : ℚ) + (j : ℚ) * 1) * (365.25 : ℚ))) :=
  ⟨by norm_num,
    find_gamma_parameters_iteration_order (fun _ _ _ => 0) (fun _ _ _ => 0) 0 (1/2)
      (1, 1) (1, 1) 0 1 (by norm_num)⟩

/-- Sequencing of possibly-failing evaluations over a list, modelling a Python
loop whose body may raise: the first failure aborts the whole loop. -/
def mapO {A B : Type} (f : A → Option B) : List A → Option (List B)
  | [] => some []
  | x :: xs =>
      match f x, mapO f xs with
      | some y, some ys => some (y :: ys)
      | _, _ => none

theorem mapO_eq_some {A B : Type} {f : A → Option B} {g : A → B} :
    ∀ l : List A, (∀ x ∈ l, f x = some (g x)) → mapO f l = some (l.map g)
  | [], _ => rfl
  | x :: xs, h => by
      have hx : f x = some (g x) := h x (List.mem_cons_self x xs)
      have hxs := mapO_eq_some xs fun y hy => h y (List.mem_cons_of_mem x hy)
      simp [mapO, hx, hxs]

/-- One loop-body evaluation of `find_gamma_parameters`, guarded by the domain
conditions under which the spec declares distribution evaluation well-defined
(shape > 0, scale > 0, probability in (0,1)); outside the guard the model
signals a potential domain error with `none`.  Inside the guard it returns the
recorded pair exactly when the density test passes. -/
def gamma_point_checked (ppf pdf : ℚ → ℚ → ℚ → ℚ)
    (p_target q_target tolerance alpha tau_bar : ℚ) : Option (Option (ℚ × ℚ)) :=
  if 0 < alpha ∧ 0 < tau_bar / alpha ∧ 0 < q_target ∧ q_target < 1 then
    some (if |pdf (ppf q_target alpha (tau_bar / alpha)) alpha (tau_bar / alpha) - p_target|
        ≤ tolerance then some (alpha, tau_bar) else none)
  else none

/-- Error-aware rendition of `find_gamma_parameters`: the same double loop, but
each loop-body evaluation goes through `gamma_point_checked`, and any domain
error aborts the computation with `none`. -/
def find_gamma_parameters_checked (ppf pdf : ℚ → ℚ → ℚ → ℚ) (p_target q_target : ℚ)
    (alpha_range tau_bar_range : ℚ × ℚ) (tolerance step_size : ℚ) :
    Option (List (ℚ × ℚ)) :=
  Option.map List.flatten <|
    mapO (fun alpha =>
        Option.map (List.filterMap id) <|
          mapO (fun tau_bar =>
              gamma_point_checked ppf pdf p_target q_target tolerance alpha tau_bar)
            ((arange tau_bar_range.1 (tau_bar_range.2 + step_size) step_size).map
              fun tau_bar => tau_bar * (365.25 : ℚ)))
      (arange alpha_range.1 (alpha_range.2 + step_size) step_size)

/-- Claim C7: for well-formed numeric input (positive range starts, positive
step, probability in (0,1)), every loop-body evaluation of
`find_gamma_parameters` is well-defined — every grid shape and scale is
positive, so no guard of the error-aware rendition fires — and the function
returns normally with its usual result. -/
theorem find_gamma_parameters_no_exceptions (ppf pdf : ℚ → ℚ → ℚ → ℚ)
    (p_target q_target : ℚ) (alpha_range tau_bar_range : ℚ × ℚ)
    (tolerance step_size : ℚ)
    (hp : 0 ≤ p_target) (hq0 : 0 < q_target) (hq1 : q_target < 1)
    (ha : 0 < alpha_range.1) (ht : 0 < tau_bar_range.1)
    (htol : 0 ≤ tolerance) (hst : 0 < step_size) :
    find_gamma_parameters_checked ppf pdf p_target q_target alpha_range tau_bar_range
        tolerance step_size =
      some (find_gamma_parameters ppf pdf p_target q_target alpha_range tau_bar_range
        tolerance step_size) := by
  unfold find_gamma_parameters_checked
  have houter : ∀ alpha ∈ arange alpha_range.1 (alpha_range.2 + step_size) step_size,
      (Option.map (List.filterMap id) <|
        mapO (fun tau_bar =>
            gamma_point_checked ppf pdf p_target q_target tolerance alpha tau_bar)
          ((arange tau_bar_range.1 (tau_bar_range.2 + step_size) step_size).map
            fun tau_bar => tau_bar * (365.25 : ℚ))) =
      some (((arange tau_bar_range.1 (tau_bar_range.2 + step_size) step_size).map
          fun tau_bar => tau_bar * (365.25 : ℚ)).filterMap fun tau_bar =>
        if |pdf (ppf q_target alpha (tau_bar / alpha)) alpha (tau_bar / alpha) - p_target|
            ≤ tolerance then some (alpha, tau_bar) else none) := by
    intro alpha halpha
    have halpha_pos : 0 < alpha := arange_pos ha hst.le halpha
    have hinner : mapO (fun tau_bar =>
        gamma_point_checked ppf pdf p_target q_target tolerance alpha tau_bar)
        ((arange tau_bar_range.1 (tau_bar_range.2 + step_size) step_size).map
          fun tau_bar => tau_bar * (365.25 : ℚ)) =
        some (((arange tau_bar_range.1 (tau_bar_range.2 + step_size) step_size).map
            fun tau_bar => tau_bar * (365.25 : ℚ)).map fun tau_bar =>
          if |pdf (ppf q_target alpha (tau_bar / alpha)) alpha (tau_bar / alpha) - p_target|
              ≤ tolerance then some (alpha, tau_bar) else none) := by
      apply mapO_eq_some
      intro tau_bar htau
      obtain ⟨t, ht_mem, rfl⟩ := List.mem_map.1 htau
      have htpos : 0 < t := arange_pos ht hst.le ht_mem
      have htau_pos : 0 < t * (365.25 : ℚ) := mul_pos htpos (by norm_num)
      unfold gamma_point_checked
      rw [if_pos ⟨halpha_pos, div_pos htau_pos halpha_pos, hq0, hq1⟩]
    rw [hinner, Option.map_some', List.filterMap_map]
    rfl
  rw [mapO_eq_some _ houter, Option.map_some']
  rfl

/-- Witness for C7 at a concrete well-formed input. -/
theorem find_gamma_parameters_no_exceptions_witness :
    ((0 : ℚ) ≤ 0 ∧ (0 : ℚ) < 1/2 ∧ (1/2 : ℚ) < 1 ∧ (0 : ℚ) < 1) ∧
    find_gamma_parameters_checked (fun _ _ _ => 0) (fun _ _ _ => 0) 0 (1/2) (1, 1) (1, 1)
        0 1 =
      some (find_gamma_parameters (fun _ _ _ => 0) (fun _ _ _ => 0) 0 (1/2) (1, 1) (1, 1)
        0 1) :=
  ⟨⟨le_refl 0, by norm_num, by norm_num, by norm_num⟩,
    find_gamma_parameters_no_exceptions (fun _ _ _ => 0) (fun _ _ _ => 0) 0 (1/2)
      (1, 1) (1, 1) 0 1 (le_refl 0) (by norm_num) (by norm_num) (by norm_num)
      (by norm_num) (le_refl 0) (by norm_num)⟩
